import Mathlib

/-!
Shallow embedding of the repository `my-python-logging-setup`:
`src/log.py`, `src/extract.py`, `src/custom_exceptions.py` and the
entrypoint `main.py`.

Conventions of the embedding:
* Python runtime values are modelled by the inductive type `PyVal`
  (floats are not modelled; no claim exercises them).
* Wall-clock readings (`time.perf_counter()`) are passed in explicitly as
  rational-number parameters; the formatted runtime-metrics text of the
  call-logging wrapper (which renders floating-point durations) is
  abstracted as an explicit string parameter `runtimeText`.
* Raising an exception is modelled with `Except PyError`; state mutations
  that happen before a raise persist in the returned state, as they do in
  Python.
* Log emission is modelled by returning the list of emitted log events.
-/

/-- Python runtime values that flow through the logging utilities.
`VBool` is rendered unquoted by `str_truncate` because Python `bool` is a
subclass of `int` and so passes the `isinstance(input_obj, (int, float))`
test. -/
inductive PyVal where
  | VInt : Int → PyVal
  | VBool : Bool → PyVal
  | VStr : String → PyVal
  | VNone : PyVal
  | VList : List PyVal → PyVal
  | VTuple : List PyVal → PyVal
  | VSet : List PyVal → PyVal
  | VDict : List (PyVal × PyVal) → PyVal

/-- Python exceptions raised by the embedded code. -/
inductive PyError where
  | ValueError : String → PyError
  | TypeError : String → PyError
  | KeyError : String → PyError
  | AlreadyExistsError : String → PyError
deriving DecidableEq

mutual

/-- Python `repr()` of a `PyVal` (containers render their elements with
`repr`, strings render quoted). Escape sequences inside strings are not
modelled. -/
def pyRepr : PyVal → String
  | .VInt n => toString n
  | .VBool b => if b then "True" else "False"
  | .VStr s => "\x27" ++ s ++ "\x27"
  | .VNone => "None"
  | .VList xs => "[" ++ ", ".intercalate (pyReprList xs) ++ "]"
  | .VTuple xs =>
      match pyReprList xs with
      | [r] => "(" ++ r ++ ",)"
      | rs => "(" ++ ", ".intercalate rs ++ ")"
  | .VSet xs =>
      match pyReprList xs with
      | [] => "set()"
      | rs => "\x7b" ++ ", ".intercalate rs ++ "\x7d"
  | .VDict kvs => "\x7b" ++ ", ".intercalate (pyReprPairs kvs) ++ "\x7d"
termination_by v => sizeOf v

/-- The `repr()` renderings of the elements of a Python list. -/
def pyReprList : List PyVal → List String
  | [] => []
  | x :: xs => pyRepr x :: pyReprList xs
termination_by xs => sizeOf xs

/-- The `"key: value"` renderings of the items of a Python dict. -/
def pyReprPairs : List (PyVal × PyVal) → List String
  | [] => []
  | (k, v) :: kvs => (pyRepr k ++ ": " ++ pyRepr v) :: pyReprPairs kvs
termination_by kvs => sizeOf kvs

end

/-- Python `str()` of a `PyVal`: identical to `repr()` except on strings,
which render unquoted. The scalar cases are spelled out (with the same
renderings as `pyRepr`) so that they compute by plain iota reduction. -/
def pyStr : PyVal → String
  | .VStr s => s
  | .VInt n => toString n
  | .VBool b => if b then "True" else "False"
  | .VNone => "None"
  | v => pyRepr v

/-- The local variable `input_str` of `str_truncate` (src/log.py lines
54-57): numeric values (including `bool`, a subclass of `int`) render via
`str()`, every other value renders inside single quotes via the f-string
`f"'{input_obj}'"`. -/
def str_render : PyVal → String
  | .VInt n => toString n
  | .VBool b => if b then "True" else "False"
  | v => "\x27" ++ pyStr v ++ "\x27"

/-- `str_truncate` (src/log.py lines 52-60): returns a truncated string
version of `input_obj` if it is longer than `max_nchar`. Python slicing
`input_str[:max_nchar]` is character-based, modelled via `List.take` on
the character list. -/
def str_truncate (input_obj : PyVal) (max_nchar : Nat) : String :=
  let input_str : String := str_render input_obj
  if input_str.length > max_nchar then
    String.mk (input_str.toList.take max_nchar) ++ "..."
  else
    input_str

/-- JSON escaping of one character, as performed by `json.dumps` on the
characters appearing in this development (backslash and double quote). -/
def json_escape_char (c : Char) : String :=
  if c = '\\' then "\\\\"
  else if c = '"' then "\\\""
  else String.singleton c

/-- JSON string escaping, as performed by `json.dumps`. -/
def json_escape_string (s : String) : String :=
  String.join (s.toList.map json_escape_char)

/-- A JSON string literal: the escaped text inside double quotes. -/
def json_render_str (s : String) : String :=
  "\"" ++ json_escape_string s ++ "\""

/-- `json.dumps(xs, indent=4)` for a Python list (or tuple) of strings:
an empty list renders as `[]`; otherwise each element sits on its own
line indented by four spaces. -/
def json_dumps_str_list (xs : List String) : String :=
  match xs with
  | [] => "[]"
  | _ =>
      "[\n    " ++ ",\n    ".intercalate (xs.map json_render_str) ++ "\n]"

/-- `json.dumps(d, indent=4)` for a Python dict with string keys and
string values. -/
def json_dumps_str_dict (kvs : List (String × String)) : String :=
  match kvs with
  | [] => "\x7b\x7d"
  | _ =>
      "\x7b\n    " ++
        ",\n    ".intercalate
          (kvs.map (fun kv => json_render_str kv.1 ++ ": " ++ json_render_str kv.2)) ++
        "\n\x7d"

/-- Building a Python dict from a stream of key/value pairs (the dict
comprehension in `dynamic_str_truncate`): a repeated key keeps its first
insertion position and the last value written to it. -/
def py_dict_of_pairs (kvs : List (String × String)) : List (String × String) :=
  kvs.foldl
    (fun acc kv =>
      if acc.any (fun p => p.1 = kv.1) then
        acc.map (fun p => if p.1 = kv.1 then (p.1, kv.2) else p)
      else
        acc ++ [kv])
    []

/-- Python slicing `s[1:-1]`: drop the first and the last character. -/
def py_slice_drop_ends (s : String) : String :=
  String.mk ((s.toList.drop 1).dropLast)

/-- `dynamic_str_truncate` (src/log.py lines 63-93): returns a string
version of `input_element`, possibly truncating it (or the items within
it) based on its length and type. -/
def dynamic_str_truncate (input_element : PyVal) (max_nchar : Nat) : String :=
  match input_element with
  | .VList xs =>
      json_dumps_str_list (xs.map (fun x => str_truncate x max_nchar))
  | .VDict kvs =>
      json_dumps_str_dict
        (py_dict_of_pairs
          (kvs.map (fun kv => (str_truncate kv.1 max_nchar, str_truncate kv.2 max_nchar))))
  | .VTuple xs =>
      json_dumps_str_list (xs.map (fun x => str_truncate x max_nchar))
  | .VSet xs =>
      "set([" ++
        py_slice_drop_ends (json_dumps_str_list (xs.map (fun x => str_truncate x max_nchar))) ++
        "])"
  | _ => str_truncate input_element max_nchar

/-- The keyword configuration of `log_function_or_method_call`
(src/log.py lines 96-115). Log levels use the numeric values of the
`logging` module (DEBUG 10, INFO 20, WARNING 30, ERROR 40, CRITICAL 50). -/
structure LogFnConfig where
  loglevel : Nat
  log_inputs : Bool
  log_outputs : Bool
  log_inputs_max_nchar : Nat
  log_outputs_max_nchar : Nat
  log_runtime_metrics : Bool
deriving DecidableEq

/-- A log record emitted through `logging.Logger.log(level, message)`:
the level together with the fully formatted message text. -/
def LogRecord : Type := Nat × String

/-- The variable `prerun_log_message` of `wrapper_log_function_call`
(src/log.py lines 119-132): when `log_inputs` is true, the comma-joined
positional renderings are concatenated directly with the comma-joined
`key=value` renderings (two separate `+=` of two separate joins, with no
separator in between). -/
def prerun_log_message (cfg : LogFnConfig) (funcName : String)
    (args : List PyVal) (kwargs : List (String × PyVal)) : String :=
  "Called " ++ funcName ++ "(" ++
    (if cfg.log_inputs then
      ", ".intercalate
          (args.map (fun arg => dynamic_str_truncate arg cfg.log_inputs_max_nchar)) ++
      ", ".intercalate
          (kwargs.map (fun kv =>
            dynamic_str_truncate (.VStr kv.1) cfg.log_inputs_max_nchar ++ "=" ++
              dynamic_str_truncate kv.2 cfg.log_inputs_max_nchar))
    else "") ++
  ")"

/-- The variable `postrun_log_message` of `wrapper_log_function_call`
(src/log.py lines 139-150). The runtime-metrics block renders
floating-point durations from `time.perf_counter()` readings; that
timing-dependent text is abstracted as the parameter `runtimeText`. -/
def postrun_log_message (cfg : LogFnConfig) (funcName : String)
    (funcOutput : PyVal) (runtimeText : String) : String :=
  "Finished function/method " ++ funcName ++ "()" ++
    (if cfg.log_outputs then
      "\n    --Function/method Output--\n" ++
        dynamic_str_truncate funcOutput cfg.log_outputs_max_nchar
    else "") ++
    (if cfg.log_runtime_metrics then runtimeText else "")

/-- `wrapper_log_function_call` (src/log.py lines 117-154): logs the
pre-call message, invokes the wrapped function, and logs the post-call
message only when `log_outputs` or `log_runtime_metrics` is set. The
wrapped function itself may emit log records (first component of its
result) and may raise; a raise propagates unchanged and skips the
post-call message. -/
def wrapper_log_function_call (cfg : LogFnConfig) (funcName : String)
    (func : List PyVal → List (String × PyVal) → List LogRecord × Except PyError PyVal)
    (runtimeText : String)
    (args : List PyVal) (kwargs : List (String × PyVal)) :
    List LogRecord × Except PyError PyVal :=
  let pre : LogRecord := (cfg.loglevel, prerun_log_message cfg funcName args kwargs)
  match func args kwargs with
  | (innerLogs, .error e) => (pre :: innerLogs, .error e)
  | (innerLogs, .ok funcOutput) =>
      let post : LogRecord :=
        (cfg.loglevel, postrun_log_message cfg funcName funcOutput runtimeText)
      (pre :: innerLogs ++
        (if cfg.log_outputs || cfg.log_runtime_metrics then [post] else []),
       .ok funcOutput)

/-- The decorator configuration of the three extraction stubs in
src/extract.py: `log_function_or_method_call(logger, log_outputs=True,
log_runtime_metrics=True)` with all other arguments at their defaults. -/
def extract_stub_cfg : LogFnConfig :=
  ⟨20, false, true, 50, 50, true⟩

/-- The decorator configuration of `extract_data` in src/extract.py:
`log_function_or_method_call(logger, log_inputs=True)` with all other
arguments at their defaults. -/
def extract_data_cfg : LogFnConfig :=
  ⟨20, true, false, 50, 50, false⟩

/-- The dict returned by the body of `extract_from_pos_system`
(src/extract.py line 37). -/
def pos_system_result : PyVal :=
  .VDict [(.VStr "status", .VStr "SUCCESS"), (.VStr "nrows", .VInt 6239)]

/-- The dict returned by the body of `extract_mobile_events_data`
(src/extract.py line 46). -/
def mobile_events_result : PyVal :=
  .VDict [(.VStr "status", .VStr "FAILURE"), (.VStr "nrows", .VNone)]

/-- The dict returned by the body of `extract_web_events_data`
(src/extract.py line 55). -/
def web_events_result : PyVal :=
  .VDict [(.VStr "status", .VStr "SUCCESS"), (.VStr "nrows", .VInt 867111)]

/-- The decorated `extract_from_pos_system` (src/extract.py lines 31-37):
its body sleeps (no observable effect on values) and returns
`pos_system_result`; the decorator logs around it. -/
def extract_from_pos_system (runtimeText : String)
    (args : List PyVal) (kwargs : List (String × PyVal)) :
    List LogRecord × Except PyError PyVal :=
  wrapper_log_function_call extract_stub_cfg "extract_from_pos_system"
    (fun _ _ => ([], .ok pos_system_result)) runtimeText args kwargs

/-- The decorated `extract_mobile_events_data` (src/extract.py lines 40-46). -/
def extract_mobile_events_data (runtimeText : String)
    (args : List PyVal) (kwargs : List (String × PyVal)) :
    List LogRecord × Except PyError PyVal :=
  wrapper_log_function_call extract_stub_cfg "extract_mobile_events_data"
    (fun _ _ => ([], .ok mobile_events_result)) runtimeText args kwargs

/-- The decorated `extract_web_events_data` (src/extract.py lines 49-55). -/
def extract_web_events_data (runtimeText : String)
    (args : List PyVal) (kwargs : List (String × PyVal)) :
    List LogRecord × Except PyError PyVal :=
  wrapper_log_function_call extract_stub_cfg "extract_web_events_data"
    (fun _ _ => ([], .ok web_events_result)) runtimeText args kwargs

/-- Falling off the end of a Python function body after a bare call
statement: the callee's logs are kept, its return value is discarded and
the enclosing body returns `None`; an exception from the callee
propagates. Models the dispatch arms of `extract_data`, which do not
`return` the stub results. -/
def call_and_fall_through (r : List LogRecord × Except PyError PyVal) :
    List LogRecord × Except PyError PyVal :=
  (r.1, match r.2 with
        | .ok _ => .ok .VNone
        | .error e => .error e)

/-- The body of `extract_data` (src/extract.py lines 59-70): a `match` on
`source_name` against three string literals (an equality chain), raising
`ValueError` on the wildcard arm. Each recognized arm calls the stub and
discards its result, so the body itself returns `None`. -/
def extract_data_body (runtimeText : String) (source_name : String)
    (start_datetime end_datetime : PyVal) : List LogRecord × Except PyError PyVal :=
  if source_name = "pos_system" then
    call_and_fall_through (extract_from_pos_system runtimeText [start_datetime, end_datetime] [])
  else if source_name = "mobile_events" then
    call_and_fall_through (extract_mobile_events_data runtimeText [start_datetime, end_datetime] [])
  else if source_name = "web_events" then
    call_and_fall_through (extract_web_events_data runtimeText [start_datetime, end_datetime] [])
  else
    ([], .error (.ValueError ("Unknown source_name: " ++ source_name)))

/-- The decorated `extract_data` (src/extract.py lines 58-70), called as
`extract_data(source_name, start_datetime, end_datetime)`. The outer
decorator uses `log_inputs=True` only, so the outer runtime text is never
rendered; `runtimeText` is threaded to the inner stub decorators. -/
def extract_data (runtimeText : String) (source_name : String)
    (start_datetime end_datetime : PyVal) : List LogRecord × Except PyError PyVal :=
  wrapper_log_function_call extract_data_cfg "extract_data"
    (fun args _ =>
      match args with
      | [.VStr s, t0, t1] => extract_data_body runtimeText s t0 t1
      | _ => ([], .error (.TypeError "extract_data: unexpected arguments")))
    "" [.VStr source_name, start_datetime, end_datetime] []

/-- The `"status"` field of a returned extraction result, when the result
is a dict that has one. Used to state the spec scenario "returns a result
with status == SUCCESS". -/
def result_status : Except PyError PyVal → Option PyVal
  | .ok (.VDict kvs) =>
      (kvs.find? (fun kv =>
        match kv.1 with
        | .VStr s => s = "status"
        | _ => false)).map (fun kv => kv.2)
  | _ => none

/-- One entry of `CodeSectionTimer.sections` (src/log.py line 180): the
dict `{"start_time": None, "end_time": None}`, timestamps being
`time.perf_counter()` readings modelled as rationals. -/
structure SectionEntry where
  start_time : Option ℚ
  end_time : Option ℚ
deriving DecidableEq

/-- A log record emitted by `CodeSectionTimer` through `logger.log`.
The message templates are `"Started section '%s'"` and `"Finished section
'%s' (total runtime %s seconds = %s minutes)"`; the float formatting of
the elapsed time is abstracted, the event carries the elapsed seconds as
an exact rational. -/
inductive TimerEvent where
  | sectionStarted : Nat → String → TimerEvent
  | sectionFinished : Nat → String → ℚ → TimerEvent
deriving DecidableEq

/-- `CodeSectionTimer` state (src/log.py lines 169-172): the
insertion-ordered dict of sections and the currently selected section
name. The attached `logging.Logger` is abstracted: log emission is
modelled by returned `TimerEvent` lists (the entrypoint calls
`set_logger` before any section is used). -/
structure CodeSectionTimer where
  sections : List (String × SectionEntry)
  current_section : Option String
deriving DecidableEq

/-- Lookup in the insertion-ordered `sections` dict. -/
def getSection : List (String × SectionEntry) → String → Option SectionEntry
  | [], _ => none
  | kv :: rest, name => if kv.1 = name then some kv.2 else getSection rest name

/-- In-place update (`self.sections[name][...] = ...`) of one entry of
the `sections` dict, preserving insertion order. -/
def setSection (sections : List (String × SectionEntry)) (name : String)
    (e : SectionEntry) : List (String × SectionEntry) :=
  sections.map (fun kv => if kv.1 = name then (kv.1, e) else kv)

/-- `CodeSectionTimer.section` (src/log.py lines 178-183): selects an
existing named section, or creates it (with both timestamps unset) if it
does not exist, and sets the cursor. Named `select` because `section` is
a reserved word in Lean. -/
def CodeSectionTimer.select (t : CodeSectionTimer) (section_name : String) :
    CodeSectionTimer :=
  { sections :=
      match getSection t.sections section_name with
      | none => t.sections ++ [(section_name, ⟨none, none⟩)]
      | some _ => t.sections,
    current_section := some section_name }

/-- `CodeSectionTimer.start` (src/log.py lines 185-192): raises
`AlreadyExistsError` if the selected section already has a start time
(leaving the state untouched), otherwise records `now` as the start time
and logs the started message. An unselected or missing section raises
`KeyError` as the Python dict lookup would. -/
def CodeSectionTimer.start (t : CodeSectionTimer) (now : ℚ) (loglevel : Nat) :
    CodeSectionTimer × Except PyError (List TimerEvent) :=
  match t.current_section with
  | none => (t, .error (.KeyError "None"))
  | some name =>
    match getSection t.sections name with
    | none => (t, .error (.KeyError name))
    | some sec =>
      if sec.start_time.isSome then
        (t, .error (.AlreadyExistsError
          ("section \x27" ++ name ++ "\x27 has already started")))
      else
        ({ t with sections := setSection t.sections name { sec with start_time := some now } },
         .ok [.sectionStarted loglevel name])

/-- `CodeSectionTimer.end` (src/log.py lines 194-211), named `end_timer`
because `end` is a reserved word in Lean: raises `AlreadyExistsError` if
the selected section already has an end time (state untouched). Otherwise
it first records `now` as the end time and only then computes
`end_time - start_time`; when the start time was never set this
subtraction is `float - None`, raising `TypeError` — there is no
dedicated missing-start check, and the end-time write persists. -/
def CodeSectionTimer.end_timer (t : CodeSectionTimer) (now : ℚ) (loglevel : Nat) :
    CodeSectionTimer × Except PyError (List TimerEvent) :=
  match t.current_section with
  | none => (t, .error (.KeyError "None"))
  | some name =>
    match getSection t.sections name with
    | none => (t, .error (.KeyError name))
    | some sec =>
      if sec.end_time.isSome then
        (t, .error (.AlreadyExistsError
          ("section \x27" ++ name ++ "\x27 has already finished")))
      else
        let t' : CodeSectionTimer :=
          { t with sections := setSection t.sections name { sec with end_time := some now } }
        match sec.start_time with
        | none =>
            (t', .error (.TypeError
              "unsupported operand type(s) for -: \x27float\x27 and \x27NoneType\x27"))
        | some st =>
            (t', .ok [.sectionFinished loglevel name (now - st)])

/-- The scenario of the spec's testable property for section selection:
`select("X").start(); select("Y"); select("X").end()` starting from a
fresh timer, with the two clock readings passed in. -/
def select_start_select_end_scenario (t1 t2 : ℚ) :
    CodeSectionTimer × Except PyError (List TimerEvent) :=
  let s0 : CodeSectionTimer := ⟨[], none⟩
  let afterStart := (s0.select "X").start t1 20
  ((afterStart.1.select "Y").select "X").end_timer t2 20

/-- The outcome of the entrypoint's failure path: the timer state, the
timer events emitted by the except block, the exception-log messages
emitted at ERROR level (by `logger.exception` / the `sys.excepthook`
lambda), and the exception the process finally terminates with. -/
structure MainFailureOutcome where
  timer : CodeSectionTimer
  timerEvents : List TimerEvent
  exceptionLogs : List String
  finalError : PyError
deriving DecidableEq

/-- The except block of main.py (lines 30-35) together with the
`sys.excepthook` set at main.py lines 14-16, entered with timer state `t`
and the uncaught exception `origErr`: it runs
`code_section_timer.section("FAILED to complete daily ELT process").end(logging.ERROR)`;
if that call itself raises, nothing has been logged by the block,
`logger.exception` is never reached, and the new exception escapes (the
excepthook then logs "Uncaught exception" for it); if it returns, the
block logs `"Error in daily ELT process"` with the traceback and
re-raises `origErr` (which the excepthook then logs). -/
def main_except_block (t : CodeSectionTimer) (now : ℚ) (origErr : PyError) :
    MainFailureOutcome :=
  match (t.select "FAILED to complete daily ELT process").end_timer now 40 with
  | (t2, .error e) => ⟨t2, [], ["Uncaught exception"], e⟩
  | (t2, .ok evs) =>
      ⟨t2, evs, ["Error in daily ELT process", "Uncaught exception"], origErr⟩

/-- The timer state reached in main.py when a failure occurs inside the
"Extract" section: both the "Daily ELT process" and "Extract" sections
have been created and started (at clock readings `ta` and `tb`), nothing
has ended, and "Extract" is the selected section. -/
def main_state_at_extract_failure (ta tb : ℚ) : CodeSectionTimer :=
  ⟨[("Daily ELT process", ⟨some ta, none⟩), ("Extract", ⟨some tb, none⟩)],
   some "Extract"⟩

/-- Lookup of a freshly appended entry of the sections dict: appending a
binding for a name that was absent makes that binding visible. -/
theorem getSection_append_self (l : List (String × SectionEntry)) (name : String)
    (e : SectionEntry) (h : getSection l name = none) :
    getSection (l ++ [(name, e)]) name = some e := by
  induction l with
  | nil => simp [getSection]
  | cons kv rest ih =>
      unfold getSection at h ⊢
      by_cases hk : kv.1 = name
      · simp [hk] at h
      · simp only [hk, if_false, List.cons_append] at h ⊢
        exact ih h

/-- Behaviour of `CodeSectionTimer.end` on a selected section with both
timestamps unset: the end time is recorded, and the elapsed-time
subtraction against the absent start raises `TypeError`. Shared helper
for the claims about the end operation and the entrypoint failure path. -/
theorem end_timer_unstarted_eq
    (t : CodeSectionTimer) (name : String) (now : ℚ) (lvl : Nat)
    (hc : t.current_section = some name)
    (hs : getSection t.sections name = some ⟨none, none⟩) :
    t.end_timer now lvl =
      ({ t with sections := setSection t.sections name ⟨none, some now⟩ },
       .error (.TypeError
         "unsupported operand type(s) for -: \x27float\x27 and \x27NoneType\x27")) := by
  unfold CodeSectionTimer.end_timer
  rw [hc]
  simp [hs]

/-- C6: for every value `v` and every maximum length `L ≥ 0`, the length
of `str_truncate v L` is at most `L` plus the length of the `"..."`
ellipsis marker, and when the rendered string of `v` has length at most
`L`, `str_truncate` returns that rendering unchanged (no cut, no
marker). -/
theorem str_truncate_length_bound (v : PyVal) (L : Nat) :
    (str_truncate v L).length ≤ L + "...".length ∧
      ((str_render v).length ≤ L → str_truncate v L = str_render v) := by
  unfold str_truncate
  by_cases h : (str_render v).length > L
  · constructor
    · simp only [h, if_true, String.length_append, String.mk_length]
      have h1 := List.length_take_le L (str_render v).toList
      have h2 : ("..." : String).length = 3 := rfl
      omega
    · intro hle; omega
  · constructor
    · simp only [h, if_false]; omega
    · intro _; simp [h]

/-- Witness for C6 at a rendering longer than the limit and at one within
the limit. -/
theorem str_truncate_length_bound_witness :
    (str_truncate (.VStr "abcdefghij") 4).length ≤ 4 + "...".length ∧
      str_truncate (.VStr "ab") 4 = str_render (.VStr "ab") :=
  ⟨(str_truncate_length_bound (.VStr "abcdefghij") 4).1,
   (str_truncate_length_bound (.VStr "ab") 4).2 (by decide)⟩

/-- C3: calling `end` on a selected section whose end time is unset but
whose start time is also unset is not rejected by any dedicated
missing-start check — the only precondition verified is that the end time
is not already set; the end time is then recorded and the elapsed-time
computation is performed against the absent (`None`) start, which is the
`float - None` subtraction. -/
theorem end_without_start_records_then_typeerror
    (t : CodeSectionTimer) (name : String) (now : ℚ) (lvl : Nat)
    (hc : t.current_section = some name)
    (hs : getSection t.sections name = some ⟨none, none⟩) :
    t.end_timer now lvl =
      ({ t with sections := setSection t.sections name ⟨none, some now⟩ },
       .error (.TypeError
         "unsupported operand type(s) for -: \x27float\x27 and \x27NoneType\x27")) :=
  end_timer_unstarted_eq t name now lvl hc hs

/-- Witness for C3 on a one-section registry. -/
theorem end_without_start_witness :
    CodeSectionTimer.end_timer ⟨[("S", ⟨none, none⟩)], some "S"⟩ 5 20 =
      (⟨[("S", ⟨none, some 5⟩)], some "S"⟩,
       .error (.TypeError
         "unsupported operand type(s) for -: \x27float\x27 and \x27NoneType\x27")) := by
  have h := end_without_start_records_then_typeerror
    ⟨[("S", ⟨none, none⟩)], some "S"⟩ "S" 5 20 rfl rfl
  simpa [setSection] using h

/-- C4: starting an already-started selected section raises the
AlreadyExists condition and leaves the whole timer state (in particular
the section's timestamps) unchanged; ending an already-ended selected
section likewise raises AlreadyExists and leaves the state unchanged. -/
theorem start_twice_end_twice_already_exists
    (t : CodeSectionTimer) (name : String) (sec : SectionEntry) (now : ℚ) (lvl : Nat)
    (hc : t.current_section = some name)
    (hs : getSection t.sections name = some sec) :
    (sec.start_time.isSome = true →
      t.start now lvl =
        (t, .error (.AlreadyExistsError
          ("section \x27" ++ name ++ "\x27 has already started")))) ∧
    (sec.end_time.isSome = true →
      t.end_timer now lvl =
        (t, .error (.AlreadyExistsError
          ("section \x27" ++ name ++ "\x27 has already finished")))) := by
  constructor
  · intro h
    unfold CodeSectionTimer.start
    rw [hc]
    simp [hs, h]
  · intro h
    unfold CodeSectionTimer.end_timer
    rw [hc]
    simp [hs, h]

/-- Witness for C4 on a section that has both started and finished. -/
theorem start_twice_end_twice_witness :
    (CodeSectionTimer.start ⟨[("S", ⟨some 1, some 2⟩)], some "S"⟩ 5 20 =
      (⟨[("S", ⟨some 1, some 2⟩)], some "S"⟩,
       .error (.AlreadyExistsError "section \x27S\x27 has already started"))) ∧
    (CodeSectionTimer.end_timer ⟨[("S", ⟨some 1, some 2⟩)], some "S"⟩ 5 20 =
      (⟨[("S", ⟨some 1, some 2⟩)], some "S"⟩,
       .error (.AlreadyExistsError "section \x27S\x27 has already finished"))) := by
  have h := start_twice_end_twice_already_exists
    ⟨[("S", ⟨some 1, some 2⟩)], some "S"⟩ "S" ⟨some 1, some 2⟩ 5 20 rfl rfl
  exact ⟨h.1 rfl, h.2 rfl⟩

/-- C8: selecting an existing section name is a lookup, not an overwrite —
the registry entries (all sections' timestamps) are unchanged and the
cursor is set to the name; consequently the sequence `select("X").start();
select("Y"); select("X").end()` succeeds and measures the elapsed time of
"X" from its original start reading. -/
theorem select_resumes_existing_section
    (t : CodeSectionTimer) (name : String) (sec : SectionEntry)
    (h : getSection t.sections name = some sec) (t1 t2 : ℚ) :
    ((t.select name).sections = t.sections ∧
     (t.select name).current_section = some name) ∧
    ((select_start_select_end_scenario t1 t2).2 =
        .ok [.sectionFinished 20 "X" (t2 - t1)] ∧
     getSection (select_start_select_end_scenario t1 t2).1.sections "X" =
        some ⟨some t1, some t2⟩) := by
  constructor
  · unfold CodeSectionTimer.select
    rw [h]
    exact ⟨rfl, rfl⟩
  · exact ⟨rfl, rfl⟩

/-- Witness for C8 at concrete clock readings 3 and 10 (elapsed 7). -/
theorem select_resumes_witness :
    ((CodeSectionTimer.select ⟨[("X", ⟨some 1, none⟩)], none⟩ "X").sections =
        [("X", ⟨some 1, none⟩)] ∧
     (CodeSectionTimer.select ⟨[("X", ⟨some 1, none⟩)], none⟩ "X").current_section =
        some "X") ∧
    ((select_start_select_end_scenario 3 10).2 =
        .ok [.sectionFinished 20 "X" 7] ∧
     getSection (select_start_select_end_scenario 3 10).1.sections "X" =
        some ⟨some 3, some 10⟩) := by
  have h := select_resumes_existing_section
    ⟨[("X", ⟨some 1, none⟩)], none⟩ "X" ⟨some 1, none⟩ rfl 3 10
  refine ⟨h.1, ?_, h.2.2⟩
  have h2 := h.2.1
  norm_num at h2 ⊢
  exact h2

/-- C2 (code_bug evidence): on any uncaught failure, the except block of
main.py calls `end` on the freshly created, never-started section
"FAILED to complete daily ELT process"; the elapsed-time subtraction
against the absent start raises `TypeError` before the log call, so no
section-end log and no "Error in daily ELT process" exception log is
emitted, and the process terminates with the `TypeError` instead of
re-raising the original failure (the excepthook logs only "Uncaught
exception" for the `TypeError`). -/
theorem except_block_typeerror_no_failed_log
    (t : CodeSectionTimer) (now : ℚ) (origErr : PyError)
    (h : getSection t.sections "FAILED to complete daily ELT process" = none) :
    (main_except_block t now origErr).timerEvents = [] ∧
    (main_except_block t now origErr).exceptionLogs = ["Uncaught exception"] ∧
    (main_except_block t now origErr).finalError =
      .TypeError "unsupported operand type(s) for -: \x27float\x27 and \x27NoneType\x27" := by
  have hsel : (t.select "FAILED to complete daily ELT process") =
      ⟨t.sections ++ [("FAILED to complete daily ELT process", ⟨none, none⟩)],
       some "FAILED to complete daily ELT process"⟩ := by
    unfold CodeSectionTimer.select
    rw [h]
  have hend := end_timer_unstarted_eq
    (t.select "FAILED to complete daily ELT process")
    "FAILED to complete daily ELT process" now 40
    (by rw [hsel])
    (by rw [hsel]; exact getSection_append_self _ _ _ h)
  unfold main_except_block
  rw [hend]
  exact ⟨rfl, rfl, rfl⟩

/-- Witness for C2 at the timer state main.py reaches when an extraction
raises inside the "Extract" section. -/
theorem except_block_typeerror_witness :
    (main_except_block (main_state_at_extract_failure 1 2) 5
        (.ValueError "some extraction failure")).timerEvents = [] ∧
    (main_except_block (main_state_at_extract_failure 1 2) 5
        (.ValueError "some extraction failure")).exceptionLogs = ["Uncaught exception"] ∧
    (main_except_block (main_state_at_extract_failure 1 2) 5
        (.ValueError "some extraction failure")).finalError =
      .TypeError "unsupported operand type(s) for -: \x27float\x27 and \x27NoneType\x27" :=
  except_block_typeerror_no_failed_log (main_state_at_extract_failure 1 2) 5
    (.ValueError "some extraction failure") rfl

/-- C5: for every invocation of a wrapped function that returns normally,
the pre-call message is emitted unconditionally, the post-call message is
emitted if and only if `log_outputs` or `log_runtime_metrics` is true,
and with all logging options false exactly one log record (the pre-call
record) is emitted. -/
theorem precall_always_postcall_iff_flags
    (cfg : LogFnConfig) (funcName runtimeText : String)
    (func : List PyVal → List (String × PyVal) → List LogRecord × Except PyError PyVal)
    (args : List PyVal) (kwargs : List (String × PyVal)) (v : PyVal)
    (h : func args kwargs = ([], .ok v)) :
    (wrapper_log_function_call cfg funcName func runtimeText args kwargs).1 =
      (cfg.loglevel, prerun_log_message cfg funcName args kwargs) ::
        (if cfg.log_outputs || cfg.log_runtime_metrics then
          [(cfg.loglevel, postrun_log_message cfg funcName v runtimeText)]
        else []) ∧
    (cfg.log_outputs = false → cfg.log_runtime_metrics = false →
      (wrapper_log_function_call cfg funcName func runtimeText args kwargs).1 =
        [(cfg.loglevel, prerun_log_message cfg funcName args kwargs)]) := by
  unfold wrapper_log_function_call
  rw [h]
  constructor
  · simp
  · intro h1 h2
    simp [h1, h2]

/-- Witness for C5 with `log_inputs=False, log_outputs=False,
log_runtime_metrics=False`: exactly the single pre-call record. -/
theorem precall_always_witness :
    (wrapper_log_function_call ⟨20, false, false, 50, 50, false⟩ "f"
        (fun _ _ => ([], .ok .VNone)) "" [] []).1 =
      [(20, "Called f()")] :=
  (precall_always_postcall_iff_flags ⟨20, false, false, 50, 50, false⟩ "f" ""
    (fun _ _ => ([], .ok .VNone)) [] [] .VNone rfl).2 rfl rfl

/-- C7: a wrapped function configured with `log_outputs=True`, applied to
a function returning the mapping of `extract_mobile_events_data`
(`status FAILURE`, `nrows None`), returns that mapping to the caller
unchanged and emits a post-call record containing the mapping rendered
with each key and value independently truncated; the rendering at the
default limit 50 is computed in full, so the formatting raises nothing. -/
theorem log_outputs_failure_dict_logged
    (lvl Li Lo : Nat) (li : Bool) (funcName runtimeText : String)
    (args : List PyVal) (kwargs : List (String × PyVal)) :
    (wrapper_log_function_call ⟨lvl, li, true, Li, Lo, false⟩ funcName
        (fun _ _ => ([], .ok mobile_events_result)) runtimeText args kwargs).2 =
      .ok mobile_events_result ∧
    (wrapper_log_function_call ⟨lvl, li, true, Li, Lo, false⟩ funcName
        (fun _ _ => ([], .ok mobile_events_result)) runtimeText args kwargs).1 =
      [(lvl, prerun_log_message ⟨lvl, li, true, Li, Lo, false⟩ funcName args kwargs),
       (lvl, "Finished function/method " ++ funcName ++ "()" ++
          ("\n    --Function/method Output--\n" ++
            dynamic_str_truncate mobile_events_result Lo))] ∧
    dynamic_str_truncate mobile_events_result 50 =
      "\x7b\n    \"\x27status\x27\": \"\x27FAILURE\x27\",\n    \"\x27nrows\x27\": \"\x27None\x27\"\n\x7d" := by
  refine ⟨rfl, ?_, by decide⟩
  unfold wrapper_log_function_call postrun_log_message
  simp [String.append_empty, String.append_assoc]

/-- C10: with `log_inputs=True` and at least one positional and one
keyword argument, the pre-call message is the concatenation of the
comma-joined positional renderings and the comma-joined `key=value`
renderings with no separator between the two blocks. -/
theorem precall_no_separator_between_args_kwargs
    (cfg : LogFnConfig) (funcName : String)
    (args : List PyVal) (kwargs : List (String × PyVal))
    (hli : cfg.log_inputs = true) (hargs : args ≠ []) (hkw : kwargs ≠ []) :
    prerun_log_message cfg funcName args kwargs =
      "Called " ++ funcName ++ "(" ++
        ", ".intercalate
          (args.map (fun arg => dynamic_str_truncate arg cfg.log_inputs_max_nchar)) ++
        ", ".intercalate
          (kwargs.map (fun kv =>
            dynamic_str_truncate (.VStr kv.1) cfg.log_inputs_max_nchar ++ "=" ++
              dynamic_str_truncate kv.2 cfg.log_inputs_max_nchar)) ++
      ")" := by
  unfold prerun_log_message
  rw [hli]
  simp [String.append_assoc]

/-- Witness for C10: the call `f(1, k=2)` produces the pre-call message
`Called f(1'k'=2)`, the rendering of the positional argument directly
adjacent to the rendering of the keyword pair. -/
theorem precall_no_separator_witness :
    prerun_log_message ⟨20, true, false, 50, 50, false⟩ "f"
        [.VInt 1] [("k", .VInt 2)] =
      "Called f(1\x27k\x27=2)" := by
  rw [precall_no_separator_between_args_kwargs ⟨20, true, false, 50, 50, false⟩ "f"
    [.VInt 1] [("k", .VInt 2)] rfl (by simp) (by simp)]
  rfl

/-- C1 (counterexample): at concrete timestamps, the dispatch
`extract_data("pos_system", t0, t1)` does not return a result whose
`"status"` field is `"SUCCESS"` — the returned value is `None`, which has
no status field at all. -/
theorem extract_data_pos_status_counterexample :
    result_status (extract_data "" "pos_system" .VNone .VNone).2 ≠
      some (.VStr "SUCCESS") := by
  intro h
  have heval : result_status (extract_data "" "pos_system" .VNone .VNone).2 = none := rfl
  rw [heval] at h
  exact Option.noConfusion h

/-- C1 (amended): for every pair of timestamps, `extract_data` on
"pos_system" routes to the point-of-sale extraction path — the POS stub's
pre-call and post-call records are emitted, and the stub's own result has
status "SUCCESS" — but `extract_data` itself returns `None`: the stub's
result is discarded by the dispatch, not returned. -/
theorem extract_data_pos_routes_but_returns_none
    (runtimeText : String) (t0 t1 : PyVal) :
    (extract_data runtimeText "pos_system" t0 t1).1 =
      [(20, prerun_log_message extract_data_cfg "extract_data"
              [.VStr "pos_system", t0, t1] []),
       (20, "Called extract_from_pos_system()"),
       (20, postrun_log_message extract_stub_cfg "extract_from_pos_system"
              pos_system_result runtimeText)] ∧
    (extract_data runtimeText "pos_system" t0 t1).2 = .ok .VNone ∧
    result_status (.ok pos_system_result) = some (.VStr "SUCCESS") := by
  exact ⟨rfl, rfl, rfl⟩

/-- C9: `extract_data` raises the `ValueError` configuration error for an
unknown source exactly when the source name is outside the recognized set
`pos_system`, `mobile_events`, `web_events`; on a recognized source no
error is raised (the call returns `None` normally). -/
theorem extract_data_unknown_source_iff
    (runtimeText source_name : String) (t0 t1 : PyVal) :
    ((extract_data runtimeText source_name t0 t1).2 =
        .error (.ValueError ("Unknown source_name: " ++ source_name)) ↔
      source_name ∉ (["pos_system", "mobile_events", "web_events"] : List String)) ∧
    (source_name ∈ (["pos_system", "mobile_events", "web_events"] : List String) →
      (extract_data runtimeText source_name t0 t1).2 = .ok .VNone) := by
  by_cases h1 : source_name = "pos_system"
  · subst h1
    constructor
    · have he : (extract_data runtimeText "pos_system" t0 t1).2 = .ok .VNone := rfl
      rw [he]
      simp
    · intro _; rfl
  · by_cases h2 : source_name = "mobile_events"
    · subst h2
      constructor
      · have he : (extract_data runtimeText "mobile_events" t0 t1).2 = .ok .VNone := rfl
        rw [he]
        simp
      · intro _; rfl
    · by_cases h3 : source_name = "web_events"
      · subst h3
        constructor
        · have he : (extract_data runtimeText "web_events" t0 t1).2 = .ok .VNone := rfl
          rw [he]
          simp
        · intro _; rfl
      · constructor
        · unfold extract_data wrapper_log_function_call extract_data_body
          simp [h1, h2, h3]
        · intro hmem
          simp [h1, h2, h3] at hmem

/-- Witness for C9 at the unknown source "unknown_src" and at the
recognized source "web_events". -/
theorem extract_data_unknown_source_witness :
    ((extract_data "" "unknown_src" .VNone .VNone).2 =
      .error (.ValueError "Unknown source_name: unknown_src")) ∧
    ((extract_data "" "web_events" .VNone .VNone).2 = .ok .VNone) := by
  constructor
  · have h := (extract_data_unknown_source_iff "" "unknown_src" .VNone .VNone).1.mpr
      (by decide)
    simpa using h
  · exact (extract_data_unknown_source_iff "" "web_events" .VNone .VNone).2 (by decide)
